import Mathlib

/-!
Verification development for the gRPC max-age channel filter
(src/core/lib/channel/max_age_filter.c).

The filter enforces a maximum connection age: after a configured age it
dispatches a graceful-shutdown (goaway) transport operation, and after a
further grace period it dispatches a forced-disconnect operation.  The
embedding below translates the channel data, the four closures, the channel
constructor/destructor and the per-call hooks into Lean, and models the
surrounding timer/closure scheduler as a small-step relation over a system
state so that trace properties (ordering, idempotence, inertness, teardown)
can be proved.
-/

set_option autoImplicit false

/-- Model of gpr_timespec restricted to what the filter uses: a finite number
of seconds or the infinite-future value gpr_inf_future(GPR_TIMESPAN). -/
inductive Timespec where
  | fin : Nat → Timespec
  | inf : Timespec
deriving DecidableEq, Repr

/-- gpr_inf_future(GPR_TIMESPAN). -/
def gpr_inf_future : Timespec := Timespec.inf

/-- gpr_time_from_seconds(v, GPR_TIMESPAN); the filter only calls it with a
clamped positive value. -/
def gpr_time_from_seconds (v : Int) : Timespec := Timespec.fin v.toNat

/-- gpr_time_add, saturating at the infinite future. -/
def gpr_time_add : Timespec → Timespec → Timespec
  | Timespec.fin a, Timespec.fin b => Timespec.fin (a + b)
  | _, _ => Timespec.inf

/-- The status a timer callback receives in its grpc_error argument:
GRPC_ERROR_NONE, GRPC_ERROR_CANCELLED, or any other error. -/
inductive TimerStatus where
  | ok
  | cancelled
  | otherError
deriving DecidableEq, Repr

/-- Return value of the channel/call constructors (grpc_error at the
constructor interface): success or failure. -/
inductive GrpcErrorCode where
  | noError
  | failed
deriving DecidableEq, Repr

/-- INT_MAX for a 32-bit C int. -/
def INT_MAX : Int := 2147483647

def DEFAULT_MAX_CONNECTION_AGE_S : Int := INT_MAX

def DEFAULT_MAX_CONNECTION_AGE_GRACE_S : Int := INT_MAX

/-- GRPC_HTTP2_NO_ERROR. -/
def GRPC_HTTP2_NO_ERROR : Nat := 0

/-- The two channel-arg keys the filter inspects (GPRC_ARG_MAX_CONNECION_AGE_S
and GPRC_ARG_MAX_CONNECION_AGE_GRACE_S), plus any other key. -/
inductive ChannelArgKey where
  | maxConnectionAge
  | maxConnectionAgeGrace
  | other : Nat → ChannelArgKey
deriving DecidableEq, Repr

/-- One integer-typed channel argument. -/
structure ChannelArg where
  key : ChannelArgKey
  value : Int
deriving DecidableEq, Repr

/-- Modelled from the spec: grpc_channel_arg_get_integer lives in
channel_args.c, which is not part of this repository snapshot.  The spec says
out-of-range values are clamped (ConfigurationOutOfRange is "clamped, not
fatal"; "values below 1 second are rejected/clamped to 1"), so the integer is
clamped into [minValue, maxValue].  The default is used only for missing or
mistyped arguments, which the list-of-integer-args model rules out. -/
def grpc_channel_arg_get_integer (value defaultValue minValue maxValue : Int) : Int :=
  let _ := defaultValue
  if value < minValue then minValue
  else if maxValue < value then maxValue
  else value

/-- The channel_data fields that carry state: the two mutex-guarded pending
flags and the two configured durations.  max_connection_age_grace is an
Option because the source never default-assigns it (see init_channel_elem):
none models the indeterminate, never-written field. -/
structure ChannelData where
  max_age_timer_pending : Bool
  max_age_grace_timer_pending : Bool
  max_connection_age : Timespec
  max_connection_age_grace : Option Timespec
deriving DecidableEq, Repr

/-- One iteration of the channel-args loop in init_channel_elem: the arg key
is compared against the age key, else the grace key, else ignored. -/
def applyArg (chand : ChannelData) (arg : ChannelArg) : ChannelData :=
  match arg.key with
  | ChannelArgKey.maxConnectionAge =>
      let value := grpc_channel_arg_get_integer arg.value
        DEFAULT_MAX_CONNECTION_AGE_S 1 INT_MAX
      { chand with
        max_connection_age :=
          if value = INT_MAX then gpr_inf_future else gpr_time_from_seconds value }
  | ChannelArgKey.maxConnectionAgeGrace =>
      let value := grpc_channel_arg_get_integer arg.value
        DEFAULT_MAX_CONNECTION_AGE_GRACE_S 1 INT_MAX
      { chand with
        max_connection_age_grace :=
          some (if value = INT_MAX then gpr_inf_future else gpr_time_from_seconds value) }
  | ChannelArgKey.other _ => chand

/-- The state of channel_data after the two default assignments in
init_channel_elem and before the channel-args loop.  Both default assignments
in the source write the max_connection_age field (lines 170-178); the second
one, computed from DEFAULT_MAX_CONNECTION_AGE_GRACE_S, also targets
max_connection_age, so max_connection_age_grace is left unassigned (none). -/
def init_channel_elem_defaults : ChannelData :=
  let chand : ChannelData :=
    { max_age_timer_pending := false
      max_age_grace_timer_pending := false
      max_connection_age :=
        if DEFAULT_MAX_CONNECTION_AGE_S = INT_MAX then gpr_inf_future
        else gpr_time_from_seconds DEFAULT_MAX_CONNECTION_AGE_S
      max_connection_age_grace := none }
  { chand with
    max_connection_age :=
      if DEFAULT_MAX_CONNECTION_AGE_GRACE_S = INT_MAX then gpr_inf_future
      else gpr_time_from_seconds DEFAULT_MAX_CONNECTION_AGE_GRACE_S }

/-- init_channel_elem restricted to its configuration-parsing effect: the
defaults followed by the channel-args loop; the function always returns
GRPC_ERROR_NONE. -/
def init_channel_elem (channelArgs : List ChannelArg) : ChannelData × GrpcErrorCode :=
  (channelArgs.foldl applyArg init_channel_elem_defaults, GrpcErrorCode.noError)

/-- Whether some argument of the list carries the given key. -/
def hasArgKey (channelArgs : List ChannelArg) (k : ChannelArgKey) : Bool :=
  channelArgs.any fun a => decide (a.key = k)

/-- init_call_elem: the body is just a return of GRPC_ERROR_NONE; the channel
state is passed through untouched (call_data has size 0, modelled by Unit). -/
def init_call_elem (chand : ChannelData) (calld : Unit) :
    GrpcErrorCode × ChannelData × Unit :=
  (GrpcErrorCode.noError, chand, calld)

/-- destroy_call_elem: an empty body; the channel state is untouched. -/
def destroy_call_elem (chand : ChannelData) (calld : Unit) : ChannelData × Unit :=
  (chand, calld)

theorem applyArg_grace_none (chand : ChannelData) (arg : ChannelArg) :
    (applyArg chand arg).max_connection_age_grace = none ↔
      chand.max_connection_age_grace = none ∧ arg.key ≠ ChannelArgKey.maxConnectionAgeGrace := by
  cases arg with
  | mk k v =>
    cases k <;> simp [applyArg]

theorem foldl_applyArg_grace_none (channelArgs : List ChannelArg) (chand : ChannelData) :
    (channelArgs.foldl applyArg chand).max_connection_age_grace = none ↔
      chand.max_connection_age_grace = none ∧
        hasArgKey channelArgs ChannelArgKey.maxConnectionAgeGrace = false := by
  induction channelArgs generalizing chand with
  | nil => simp [hasArgKey]
  | cons a rest ih =>
    simp only [List.foldl_cons, ih, applyArg_grace_none, hasArgKey, List.any_cons,
      Bool.or_eq_false_iff, decide_eq_false_iff_not]
    tauto

theorem applyArg_age_of_not_age (chand : ChannelData) (arg : ChannelArg)
    (h : arg.key ≠ ChannelArgKey.maxConnectionAge) :
    (applyArg chand arg).max_connection_age = chand.max_connection_age := by
  cases arg with
  | mk k v =>
    cases k <;> simp_all [applyArg]

theorem foldl_applyArg_age_of_no_age_key (channelArgs : List ChannelArg) (chand : ChannelData)
    (h : hasArgKey channelArgs ChannelArgKey.maxConnectionAge = false) :
    (channelArgs.foldl applyArg chand).max_connection_age = chand.max_connection_age := by
  induction channelArgs generalizing chand with
  | nil => simp
  | cons a rest ih =>
    simp only [hasArgKey, List.any_cons, Bool.or_eq_false_iff, decide_eq_false_iff_not] at h
    simp only [List.foldl_cons]
    rw [ih _ h.2, applyArg_age_of_not_age _ _ h.1]

/-- Observable actions of the filter against its collaborators: channel-stack
reference bookkeeping, timer arming/cancellation, and the two transport
operations (goaway with its HTTP/2 code, disconnect), both dispatched to the
channel-stack element at the given index.  logError models
GRPC_LOG_IF_ERROR. -/
inductive Act where
  | refStack
  | unrefStack
  | armAgeTimer : Timespec → Act
  | armGraceTimer : Option Timespec → Act
  | dispatchGoaway : Nat → Nat → Act
  | dispatchDisconnect : Nat → Act
  | cancelAgeTimer
  | cancelGraceTimer
  | logError
deriving DecidableEq, Repr

def Act.isArmAge : Act → Bool
  | Act.armAgeTimer _ => true
  | _ => false

def Act.isArmGrace : Act → Bool
  | Act.armGraceTimer _ => true
  | _ => false

def Act.isGoaway : Act → Bool
  | Act.dispatchGoaway _ _ => true
  | _ => false

def Act.isDisconnect : Act → Bool
  | Act.dispatchDisconnect _ => true
  | _ => false

/-- The system state: the filter's channel_data together with the state of its
collaborators — whether the deferred start closure is still scheduled, whether
the goaway continuation is still registered, whether each grpc_timer is armed
and whether grpc_timer_cancel has been requested on it, how many channel-stack
references the filter holds, and whether destroy_channel_elem has run. -/
structure Sys where
  chand : ChannelData
  startScheduled : Bool
  goawayContPending : Bool
  ageArmed : Bool
  graceArmed : Bool
  ageCancelRequested : Bool
  graceCancelRequested : Bool
  refs : Nat
  destroyed : Bool
deriving DecidableEq, Repr

/-- start_max_age_timer_after_init: under the mutex set max_age_timer_pending,
arm the age timer (grpc_timer_init) at gpr_now + max_connection_age, then
release the closure's channel-stack reference (GRPC_CHANNEL_STACK_UNREF). -/
def start_max_age_timer_after_init (s : Sys) (now : Nat) : Sys × List Act :=
  let s₁ := { s with
    chand := { s.chand with max_age_timer_pending := true }
    ageArmed := true }
  ({ s₁ with refs := s₁.refs - 1 },
   [Act.armAgeTimer (gpr_time_add (Timespec.fin now) s.chand.max_connection_age),
    Act.unrefStack])

/-- start_max_age_grace_timer_after_goaway_op: under the mutex set
max_age_grace_timer_pending, arm the grace timer at gpr_now +
max_connection_age_grace (an indeterminate deadline when the grace field was
never assigned), then release the continuation's channel-stack reference. -/
def start_max_age_grace_timer_after_goaway_op (s : Sys) (now : Nat) : Sys × List Act :=
  let s₁ := { s with
    chand := { s.chand with max_age_grace_timer_pending := true }
    graceArmed := true }
  ({ s₁ with refs := s₁.refs - 1 },
   [Act.armGraceTimer
      (s.chand.max_connection_age_grace.map fun g => gpr_time_add (Timespec.fin now) g),
    Act.unrefStack])

/-- close_max_age_channel: under the mutex clear max_age_timer_pending; on
GRPC_ERROR_NONE take a channel-stack reference and dispatch a goaway transport
op carrying GRPC_HTTP2_NO_ERROR to stack element 0, registering
start_max_age_grace_timer_after_goaway_op as the op's continuation; on
GRPC_ERROR_CANCELLED do nothing further; on any other error log it. -/
def close_max_age_channel (s : Sys) (status : TimerStatus) : Sys × List Act :=
  let s₁ := { s with chand := { s.chand with max_age_timer_pending := false } }
  match status with
  | TimerStatus.ok =>
      ({ s₁ with refs := s₁.refs + 1, goawayContPending := true },
       [Act.refStack, Act.dispatchGoaway GRPC_HTTP2_NO_ERROR 0])
  | TimerStatus.cancelled => (s₁, [])
  | TimerStatus.otherError => (s₁, [Act.logError])

/-- force_close_max_age_channel: under the mutex clear
max_age_grace_timer_pending; on GRPC_ERROR_NONE dispatch a
disconnect_with_error transport op to stack element 0 (no reference is taken);
on GRPC_ERROR_CANCELLED do nothing further; on any other error log it. -/
def force_close_max_age_channel (s : Sys) (status : TimerStatus) : Sys × List Act :=
  let s₁ := { s with chand := { s.chand with max_age_grace_timer_pending := false } }
  match status with
  | TimerStatus.ok => (s₁, [Act.dispatchDisconnect 0])
  | TimerStatus.cancelled => (s₁, [])
  | TimerStatus.otherError => (s₁, [Act.logError])

/-- destroy_channel_elem: under the mutex, cancel the age timer if
max_age_timer_pending and cancel the grace timer if
max_age_grace_timer_pending; nothing else. -/
def destroy_channel_elem (s : Sys) : Sys × List Act :=
  let p₁ :=
    if s.chand.max_age_timer_pending then
      ({ s with ageCancelRequested := true }, [Act.cancelAgeTimer])
    else (s, ([] : List Act))
  let p₂ :=
    if p₁.1.chand.max_age_grace_timer_pending then
      ({ p₁.1 with graceCancelRequested := true }, [Act.cancelGraceTimer])
    else (p₁.1, ([] : List Act))
  (p₂.1, p₁.2 ++ p₂.2)

/-- The system state right after init_channel_elem: the parsed channel_data
with both pending flags false; when max_connection_age differs from
gpr_inf_future (gpr_time_cmp != 0) the constructor takes one channel-stack
reference and schedules start_max_age_timer_after_init, without arming any
timer synchronously. -/
def initSys (channelArgs : List ChannelArg) : Sys :=
  let chand := (init_channel_elem channelArgs).1
  if chand.max_connection_age ≠ gpr_inf_future then
    { chand := chand
      startScheduled := true
      goawayContPending := false
      ageArmed := false
      graceArmed := false
      ageCancelRequested := false
      graceCancelRequested := false
      refs := 1
      destroyed := false }
  else
    { chand := chand
      startScheduled := false
      goawayContPending := false
      ageArmed := false
      graceArmed := false
      ageCancelRequested := false
      graceCancelRequested := false
      refs := 0
      destroyed := false }

/-- The scheduler-visible events: running the deferred start closure, a timer
callback firing with a status, running the goaway continuation, and channel
teardown.  Timer-callback events carry the status delivered by the timer
subsystem. -/
inductive Ev where
  | runStartAgeTimer : Nat → Ev
  | ageTimerFire : TimerStatus → Ev
  | runGraceTimerCont : Nat → Ev
  | graceTimerFire : TimerStatus → Ev
  | channelDestroy
deriving DecidableEq, Repr

/-- Small-step relation over system states.  Modelled from the spec where the
collaborators are outside this repository snapshot: a scheduled closure or
registered continuation runs exactly once; a timer callback runs only while
the timer is armed; after grpc_timer_cancel has been requested the callback
observes GRPC_ERROR_CANCELLED (spec section 5: a cancellation of an already
dequeued timer is harmless because the callback observes Cancelled status and
no-ops); destroy_channel_elem runs only once the filter holds no channel-stack
references (the stack is not freed while a reference is outstanding). -/
inductive Step : Sys → Ev → List Act → Sys → Prop where
  | runStart (s : Sys) (now : Nat) :
      s.startScheduled = true →
      Step s (Ev.runStartAgeTimer now)
        (start_max_age_timer_after_init { s with startScheduled := false } now).2
        (start_max_age_timer_after_init { s with startScheduled := false } now).1
  | ageFire (s : Sys) (status : TimerStatus) :
      s.ageArmed = true →
      (s.ageCancelRequested = true → status = TimerStatus.cancelled) →
      Step s (Ev.ageTimerFire status)
        (close_max_age_channel { s with ageArmed := false } status).2
        (close_max_age_channel { s with ageArmed := false } status).1
  | runGraceCont (s : Sys) (now : Nat) :
      s.goawayContPending = true →
      Step s (Ev.runGraceTimerCont now)
        (start_max_age_grace_timer_after_goaway_op { s with goawayContPending := false } now).2
        (start_max_age_grace_timer_after_goaway_op { s with goawayContPending := false } now).1
  | graceFire (s : Sys) (status : TimerStatus) :
      s.graceArmed = true →
      (s.graceCancelRequested = true → status = TimerStatus.cancelled) →
      Step s (Ev.graceTimerFire status)
        (force_close_max_age_channel { s with graceArmed := false } status).2
        (force_close_max_age_channel { s with graceArmed := false } status).1
  | destroy (s : Sys) :
      s.destroyed = false →
      s.refs = 0 →
      Step s Ev.channelDestroy
        (destroy_channel_elem s).2
        { (destroy_channel_elem s).1 with destroyed := true }

/-- Reachability: a finite interleaving of steps, recording each event with
the actions it emitted. -/
inductive Reaches : Sys → List (Ev × List Act) → Sys → Prop where
  | refl (s : Sys) : Reaches s [] s
  | step (s s₁ s₂ : Sys) (tr : List (Ev × List Act)) (e : Ev) (acts : List Act) :
      Reaches s tr s₁ → Step s₁ e acts s₂ → Reaches s (tr ++ [(e, acts)]) s₂

/-- All actions emitted along a trace, in order. -/
def traceActs (tr : List (Ev × List Act)) : List Act :=
  (tr.map Prod.snd).flatten

theorem traceActs_append (tr₁ tr₂ : List (Ev × List Act)) :
    traceActs (tr₁ ++ tr₂) = traceActs tr₁ ++ traceActs tr₂ := by
  simp [traceActs]

/-- The central safety invariant tying the system state to the action history:
pending flags track armed timers, the reference count matches the outstanding
closures, each lifecycle phase pins down the counts of arm/dispatch actions so
far, counts are bounded by one and ordered (age arm, then goaway, then grace
arm, then disconnect), and a destroyed channel has no outstanding closures and
has requested cancellation of any armed timer. -/
structure SysInv (s : Sys) (A : List Act) : Prop where
  pendAge : s.chand.max_age_timer_pending = s.ageArmed
  pendGrace : s.chand.max_age_grace_timer_pending = s.graceArmed
  refsEq : s.refs =
    (if s.startScheduled then 1 else 0) + (if s.goawayContPending then 1 else 0)
  startInv : s.startScheduled = true →
    A.countP Act.isArmAge = 0 ∧ s.ageArmed = false ∧ s.goawayContPending = false ∧
      s.graceArmed = false ∧ A.countP Act.isGoaway = 0 ∧ A.countP Act.isArmGrace = 0 ∧
      A.countP Act.isDisconnect = 0
  ageInv : s.ageArmed = true →
    A.countP Act.isArmAge = 1 ∧ s.startScheduled = false ∧ s.goawayContPending = false ∧
      s.graceArmed = false ∧ A.countP Act.isGoaway = 0 ∧ A.countP Act.isArmGrace = 0 ∧
      A.countP Act.isDisconnect = 0
  contInv : s.goawayContPending = true →
    A.countP Act.isGoaway = 1 ∧ s.graceArmed = false ∧ A.countP Act.isArmGrace = 0 ∧
      A.countP Act.isDisconnect = 0
  graceInv : s.graceArmed = true →
    A.countP Act.isArmGrace = 1 ∧ A.countP Act.isDisconnect = 0
  armAgeLe : A.countP Act.isArmAge ≤ 1
  goawayLe : A.countP Act.isGoaway ≤ A.countP Act.isArmAge
  armGraceLe : A.countP Act.isArmGrace ≤ A.countP Act.isGoaway
  discLe : A.countP Act.isDisconnect ≤ A.countP Act.isArmGrace
  destroyedInv : s.destroyed = true →
    s.startScheduled = false ∧ s.goawayContPending = false ∧
      (s.ageArmed = true → s.ageCancelRequested = true) ∧
      (s.graceArmed = true → s.graceCancelRequested = true)

theorem destroy_channel_elem_eq (s : Sys) :
    destroy_channel_elem s =
      ({ s with
          ageCancelRequested := s.ageCancelRequested || s.chand.max_age_timer_pending
          graceCancelRequested :=
            s.graceCancelRequested || s.chand.max_age_grace_timer_pending },
       (if s.chand.max_age_timer_pending then [Act.cancelAgeTimer] else []) ++
         (if s.chand.max_age_grace_timer_pending then [Act.cancelGraceTimer] else [])) := by
  cases hp1 : s.chand.max_age_timer_pending <;>
    cases hp2 : s.chand.max_age_grace_timer_pending <;>
      simp [destroy_channel_elem, hp1, hp2]

set_option maxHeartbeats 1600000 in
theorem step_inv {s s' : Sys} {e : Ev} {acts A : List Act}
    (hI : SysInv s A) (hs : Step s e acts s') : SysInv s' (A ++ acts) := by
  obtain ⟨pA, pG, rE, sI, aI, cI, gI, aaLe, gLe, agLe, dLe, dI⟩ := hI
  cases hs with
  | runStart now h =>
    obtain ⟨c1, c2, c3, c4, c5, c6, c7⟩ := sI h
    have hd : s.destroyed = false := by
      cases hsd : s.destroyed with
      | false => rfl
      | true => exact absurd (dI hsd).1 (by simp [h])
    refine ⟨?_, ?_, ?_, ?_, ?_, ?_, ?_, ?_, ?_, ?_, ?_, ?_⟩ <;>
      simp_all [start_max_age_timer_after_init, List.countP_append, List.countP_cons,
        Act.isArmAge, Act.isArmGrace, Act.isGoaway, Act.isDisconnect,
        -List.countP_eq_zero]
  | ageFire status h hc =>
    obtain ⟨c1, c2, c3, c4, c5, c6, c7⟩ := aI h
    cases status with
    | ok =>
      have hcr : s.ageCancelRequested = false := by
        cases hx : s.ageCancelRequested with
        | false => rfl
        | true => exact absurd (hc hx) (by simp)
      have hd : s.destroyed = false := by
        cases hsd : s.destroyed with
        | false => rfl
        | true => exact absurd ((dI hsd).2.2.1 h) (by simp [hcr])
      refine ⟨?_, ?_, ?_, ?_, ?_, ?_, ?_, ?_, ?_, ?_, ?_, ?_⟩ <;>
        simp_all [close_max_age_channel, List.countP_append, List.countP_cons,
          Act.isArmAge, Act.isArmGrace, Act.isGoaway, Act.isDisconnect,
          -List.countP_eq_zero]
    | cancelled =>
      refine ⟨?_, ?_, ?_, ?_, ?_, ?_, ?_, ?_, ?_, ?_, ?_, ?_⟩ <;>
        simp_all [close_max_age_channel, List.countP_append, List.countP_cons,
          Act.isArmAge, Act.isArmGrace, Act.isGoaway, Act.isDisconnect,
          -List.countP_eq_zero]
    | otherError =>
      refine ⟨?_, ?_, ?_, ?_, ?_, ?_, ?_, ?_, ?_, ?_, ?_, ?_⟩ <;>
        simp_all [close_max_age_channel, List.countP_append, List.countP_cons,
          Act.isArmAge, Act.isArmGrace, Act.isGoaway, Act.isDisconnect,
          -List.countP_eq_zero]
  | runGraceCont now h =>
    obtain ⟨c1, c2, c3, c4⟩ := cI h
    have hAge : s.ageArmed = false := by
      cases hx : s.ageArmed with
      | false => rfl
      | true => exact absurd (aI hx).2.2.1 (by simp [h])
    have hStart : s.startScheduled = false := by
      cases hx : s.startScheduled with
      | false => rfl
      | true => exact absurd (sI hx).2.2.2.2.1 (by simp [c1])
    have hd : s.destroyed = false := by
      cases hsd : s.destroyed with
      | false => rfl
      | true => exact absurd (dI hsd).2.1 (by simp [h])
    refine ⟨?_, ?_, ?_, ?_, ?_, ?_, ?_, ?_, ?_, ?_, ?_, ?_⟩ <;>
      simp_all [start_max_age_grace_timer_after_goaway_op, List.countP_append,
        List.countP_cons, Act.isArmAge, Act.isArmGrace, Act.isGoaway, Act.isDisconnect,
        -List.countP_eq_zero]
  | graceFire status h hc =>
    obtain ⟨c1, c2⟩ := gI h
    have hAge : s.ageArmed = false := by
      cases hx : s.ageArmed with
      | false => rfl
      | true => exact absurd (aI hx).2.2.2.1 (by simp [h])
    have hStart : s.startScheduled = false := by
      cases hx : s.startScheduled with
      | false => rfl
      | true => exact absurd (sI hx).2.2.2.1 (by simp [h])
    have hCont : s.goawayContPending = false := by
      cases hx : s.goawayContPending with
      | false => rfl
      | true => exact absurd (cI hx).2.1 (by simp [h])
    cases status with
    | ok =>
      refine ⟨?_, ?_, ?_, ?_, ?_, ?_, ?_, ?_, ?_, ?_, ?_, ?_⟩ <;>
        simp_all [force_close_max_age_channel, List.countP_append, List.countP_cons,
          Act.isArmAge, Act.isArmGrace, Act.isGoaway, Act.isDisconnect,
          -List.countP_eq_zero]
    | cancelled =>
      refine ⟨?_, ?_, ?_, ?_, ?_, ?_, ?_, ?_, ?_, ?_, ?_, ?_⟩ <;>
        simp_all [force_close_max_age_channel, List.countP_append, List.countP_cons,
          Act.isArmAge, Act.isArmGrace, Act.isGoaway, Act.isDisconnect,
          -List.countP_eq_zero]
    | otherError =>
      refine ⟨?_, ?_, ?_, ?_, ?_, ?_, ?_, ?_, ?_, ?_, ?_, ?_⟩ <;>
        simp_all [force_close_max_age_channel, List.countP_append, List.countP_cons,
          Act.isArmAge, Act.isArmGrace, Act.isGoaway, Act.isDisconnect,
          -List.countP_eq_zero]
  | destroy h1 h2 =>
    have hStart : s.startScheduled = false := by
      cases hx : s.startScheduled with
      | false => rfl
      | true => rw [rE, hx] at h2; simp at h2
    have hCont : s.goawayContPending = false := by
      cases hx : s.goawayContPending with
      | false => rfl
      | true => rw [rE, hx] at h2; simp at h2
    rw [destroy_channel_elem_eq]
    cases hp1 : s.chand.max_age_timer_pending <;>
      cases hp2 : s.chand.max_age_grace_timer_pending <;>
      refine ⟨?_, ?_, ?_, ?_, ?_, ?_, ?_, ?_, ?_, ?_, ?_, ?_⟩ <;>
        simp_all [List.countP_append, List.countP_cons,
          Act.isArmAge, Act.isArmGrace, Act.isGoaway, Act.isDisconnect,
          -List.countP_eq_zero]

theorem applyArg_pending (chand : ChannelData) (arg : ChannelArg) :
    (applyArg chand arg).max_age_timer_pending = chand.max_age_timer_pending ∧
      (applyArg chand arg).max_age_grace_timer_pending =
        chand.max_age_grace_timer_pending := by
  cases arg with
  | mk k v => cases k <;> simp [applyArg]

theorem foldl_applyArg_pending (channelArgs : List ChannelArg) (chand : ChannelData) :
    (channelArgs.foldl applyArg chand).max_age_timer_pending =
        chand.max_age_timer_pending ∧
      (channelArgs.foldl applyArg chand).max_age_grace_timer_pending =
        chand.max_age_grace_timer_pending := by
  induction channelArgs generalizing chand with
  | nil => exact ⟨rfl, rfl⟩
  | cons a rest ih =>
    simp only [List.foldl_cons]
    rw [(ih (applyArg chand a)).1, (ih (applyArg chand a)).2,
      (applyArg_pending chand a).1, (applyArg_pending chand a).2]
    exact ⟨rfl, rfl⟩

theorem init_channel_elem_pending (channelArgs : List ChannelArg) :
    (init_channel_elem channelArgs).1.max_age_timer_pending = false ∧
      (init_channel_elem channelArgs).1.max_age_grace_timer_pending = false := by
  rw [init_channel_elem]
  exact ⟨(foldl_applyArg_pending channelArgs init_channel_elem_defaults).1,
    (foldl_applyArg_pending channelArgs init_channel_elem_defaults).2⟩

theorem initSys_inv (channelArgs : List ChannelArg) : SysInv (initSys channelArgs) [] := by
  by_cases h : (init_channel_elem channelArgs).1.max_connection_age ≠ gpr_inf_future <;>
    refine ⟨?_, ?_, ?_, ?_, ?_, ?_, ?_, ?_, ?_, ?_, ?_, ?_⟩ <;>
      simp [initSys, h, List.countP_nil, (init_channel_elem_pending channelArgs).1,
        (init_channel_elem_pending channelArgs).2]

theorem reaches_inv {s s' : Sys} {tr : List (Ev × List Act)} {A : List Act}
    (hI : SysInv s A) (hr : Reaches s tr s') : SysInv s' (A ++ traceActs tr) := by
  induction hr with
  | refl => simpa [traceActs] using hI
  | step s₁ s₂ tr e acts hr hstep ih =>
    have h2 := step_inv ih hstep
    rw [traceActs_append]
    simpa [traceActs, List.append_assoc] using h2

/-- A state in which nothing is scheduled, armed or registered: the component
is fully inert and can emit no further action. -/
def Inert (s : Sys) : Prop :=
  s.startScheduled = false ∧ s.ageArmed = false ∧ s.graceArmed = false ∧
    s.goawayContPending = false ∧ s.chand.max_age_timer_pending = false ∧
    s.chand.max_age_grace_timer_pending = false

theorem inert_step {s s' : Sys} {e : Ev} {acts : List Act}
    (hin : Inert s) (hs : Step s e acts s') : Inert s' ∧ acts = [] := by
  obtain ⟨i1, i2, i3, i4, i5, i6⟩ := hin
  cases hs with
  | runStart now h => simp [i1] at h
  | ageFire status h hc => simp [i2] at h
  | runGraceCont now h => simp [i4] at h
  | graceFire status h hc => simp [i3] at h
  | destroy h1 h2 =>
    rw [destroy_channel_elem_eq]
    refine ⟨⟨?_, ?_, ?_, ?_, ?_, ?_⟩, ?_⟩ <;> simp [i1, i2, i3, i4, i5, i6]

theorem inert_reaches {s s' : Sys} {tr : List (Ev × List Act)}
    (hin : Inert s) (hr : Reaches s tr s') : Inert s' ∧ traceActs tr = [] := by
  induction hr with
  | refl => exact ⟨hin, rfl⟩
  | step s₁ s₂ tr e acts hr hstep ih =>
    obtain ⟨hi, ha⟩ := ih
    obtain ⟨hi', ha'⟩ := inert_step hi hstep
    refine ⟨hi', ?_⟩
    rw [traceActs_append, ha, ha']
    simp [traceActs]

theorem step_destroyed {s s' : Sys} {e : Ev} {acts A : List Act}
    (hI : SysInv s A) (hd : s.destroyed = true) (hs : Step s e acts s') :
    s'.destroyed = true ∧ acts = [] := by
  obtain ⟨pA, pG, rE, sI, aI, cI, gI, aaLe, gLe, agLe, dLe, dI⟩ := hI
  obtain ⟨d1, d2, d3, d4⟩ := dI hd
  cases hs with
  | runStart now h => simp [d1] at h
  | ageFire status h hc =>
    have hst := hc (d3 h)
    subst hst
    exact ⟨by simp [close_max_age_channel, hd], by simp [close_max_age_channel]⟩
  | runGraceCont now h => simp [d2] at h
  | graceFire status h hc =>
    have hst := hc (d4 h)
    subst hst
    exact ⟨by simp [force_close_max_age_channel, hd], by simp [force_close_max_age_channel]⟩
  | destroy h1 h2 => simp [hd] at h1

theorem destroyed_reaches {s s' : Sys} {tr : List (Ev × List Act)} {A : List Act}
    (hI : SysInv s A) (hd : s.destroyed = true) (hr : Reaches s tr s') :
    s'.destroyed = true ∧ traceActs tr = [] := by
  induction hr with
  | refl => exact ⟨hd, rfl⟩
  | step s₁ s₂ tr e acts hr hstep ih =>
    obtain ⟨hd₁, ha₁⟩ := ih
    have hinv₁ : SysInv s₁ (A ++ traceActs tr) := reaches_inv hI hr
    obtain ⟨hd₂, ha₂⟩ := step_destroyed hinv₁ hd₁ hstep
    refine ⟨hd₂, ?_⟩
    rw [traceActs_append, ha₁, ha₂]
    simp [traceActs]

theorem step_disconnect_source {s s' : Sys} {e : Ev} {acts : List Act}
    (hs : Step s e acts s') (a : Act) (ha : a ∈ acts) (hdis : a.isDisconnect = true) :
    e = Ev.graceTimerFire TimerStatus.ok := by
  cases hs with
  | runStart now h =>
    simp [start_max_age_timer_after_init] at ha
    rcases ha with rfl | rfl <;> simp [Act.isDisconnect] at hdis
  | ageFire status h hc =>
    cases status with
    | ok =>
      simp [close_max_age_channel] at ha
      rcases ha with rfl | rfl <;> simp [Act.isDisconnect] at hdis
    | cancelled => simp [close_max_age_channel] at ha
    | otherError =>
      simp [close_max_age_channel] at ha
      subst ha; simp [Act.isDisconnect] at hdis
  | runGraceCont now h =>
    simp [start_max_age_grace_timer_after_goaway_op] at ha
    rcases ha with rfl | rfl <;> simp [Act.isDisconnect] at hdis
  | graceFire status h hc =>
    cases status with
    | ok => rfl
    | cancelled => simp [force_close_max_age_channel] at ha
    | otherError =>
      simp [force_close_max_age_channel] at ha
      subst ha; simp [Act.isDisconnect] at hdis
  | destroy h1 h2 =>
    rw [destroy_channel_elem_eq] at ha
    have hform : a = Act.cancelAgeTimer ∨ a = Act.cancelGraceTimer := by
      rcases List.mem_append.1 ha with h | h
      · by_cases hp : s.chand.max_age_timer_pending <;> simp [hp] at h
        exact Or.inl h
      · by_cases hp : s.chand.max_age_grace_timer_pending <;> simp [hp] at h
        exact Or.inr h
    rcases hform with rfl | rfl <;> simp [Act.isDisconnect] at hdis

theorem reaches_disconnect_source {s s' : Sys} {tr : List (Ev × List Act)}
    (hr : Reaches s tr s') :
    ∀ p ∈ tr, (∃ a ∈ p.2, Act.isDisconnect a = true) →
      p.1 = Ev.graceTimerFire TimerStatus.ok := by
  induction hr with
  | refl => intro p hp; simp at hp
  | step s₁ s₂ tr e acts hr hstep ih =>
    intro p hp hdis
    rcases List.mem_append.1 hp with h | h
    · exact ih p h hdis
    · rcases List.mem_singleton.1 h with rfl
      obtain ⟨a, ha, hd⟩ := hdis
      exact step_disconnect_source hstep a ha hd

/-- C1 (code evaluation at the failing input): for a configuration that does
not set the grace-period key — the empty configuration, or one setting only
the age key — init_channel_elem leaves max_connection_age_grace unassigned
(none, modelling indeterminate memory) rather than defaulting it to the
infinite duration, because the second default assignment in the source writes
the max_connection_age field.  This refutes the claim that the grace duration
defaults to Infinite and that the two durations are defaulted
independently. -/
theorem claim_C1_code_evaluation :
    (init_channel_elem ([] : List ChannelArg)).1.max_connection_age_grace = none ∧
      (init_channel_elem
        [⟨ChannelArgKey.maxConnectionAge, 5⟩]).1.max_connection_age_grace = none :=
  ⟨by decide, by decide⟩

/-- C2: for every configuration whose stored max_connection_age is the
infinite duration, initialization schedules no deferred start callback
(startScheduled is false), and along every reachable trace no action at all is
emitted — in particular no timer is ever armed and no transport operation
(goaway or disconnect) is ever dispatched. -/
theorem claim_C2 (channelArgs : List ChannelArg) (tr : List (Ev × List Act)) (s : Sys)
    (hinf : (init_channel_elem channelArgs).1.max_connection_age = gpr_inf_future)
    (hr : Reaches (initSys channelArgs) tr s) :
    (initSys channelArgs).startScheduled = false ∧ traceActs tr = [] := by
  have hin : Inert (initSys channelArgs) := by
    refine ⟨?_, ?_, ?_, ?_, ?_, ?_⟩ <;>
      simp [initSys, hinf, (init_channel_elem_pending channelArgs).1,
        (init_channel_elem_pending channelArgs).2]
  exact ⟨hin.1, (inert_reaches hin hr).2⟩

/-- C3: over every trace reachable from initialization, the count of
grace-timer arming actions never exceeds the count of goaway dispatches, and
the count of forced disconnects never exceeds the count of grace-timer
armings; since the theorem quantifies over all reachable traces, these
inequalities hold of every prefix, which (each action being emitted by a
distinct step) says the goaway op is dispatched strictly before the grace
timer is armed and the forced disconnect never happens before either.  The
grace timer is armed at most once, the forced disconnect is dispatched at most
once, and every step emitting a forced disconnect is the grace timer firing
with Ok status. -/
theorem claim_C3 (channelArgs : List ChannelArg) (tr : List (Ev × List Act)) (s : Sys)
    (hr : Reaches (initSys channelArgs) tr s) :
    (traceActs tr).countP Act.isArmGrace ≤ (traceActs tr).countP Act.isGoaway ∧
      (traceActs tr).countP Act.isDisconnect ≤ (traceActs tr).countP Act.isArmGrace ∧
      (traceActs tr).countP Act.isArmGrace ≤ 1 ∧
      (traceActs tr).countP Act.isDisconnect ≤ 1 ∧
      (∀ p ∈ tr, (∃ a ∈ p.2, Act.isDisconnect a = true) →
        p.1 = Ev.graceTimerFire TimerStatus.ok) := by
  have hinv := reaches_inv (initSys_inv channelArgs) hr
  rw [List.nil_append] at hinv
  obtain ⟨_, _, _, _, _, _, _, aaLe, gLe, agLe, dLe, _⟩ := hinv
  exact ⟨agLe, dLe, by omega, by omega, reaches_disconnect_source hr⟩

/-- C4: close_max_age_channel clears max_age_timer_pending for every status;
with Cancelled status it changes nothing else and emits nothing; with Ok
status it additionally takes one channel-stack reference, registers the
start-grace-timer continuation, and dispatches a goaway operation carrying
GRPC_HTTP2_NO_ERROR to channel-stack element 0; with any other error status it
only logs. -/
theorem claim_C4 (t : Sys) :
    (∀ status, (close_max_age_channel t status).1.chand.max_age_timer_pending = false) ∧
      close_max_age_channel t TimerStatus.cancelled =
        ({ t with chand := { t.chand with max_age_timer_pending := false } }, []) ∧
      close_max_age_channel t TimerStatus.ok =
        ({ t with
            chand := { t.chand with max_age_timer_pending := false }
            refs := t.refs + 1
            goawayContPending := true },
         [Act.refStack, Act.dispatchGoaway GRPC_HTTP2_NO_ERROR 0]) ∧
      close_max_age_channel t TimerStatus.otherError =
        ({ t with chand := { t.chand with max_age_timer_pending := false } },
         [Act.logError]) := by
  refine ⟨?_, rfl, rfl, rfl⟩
  intro status
  cases status <;> rfl

/-- C5: force_close_max_age_channel clears max_age_grace_timer_pending for
every status; with Cancelled status it changes nothing else and emits nothing;
with Ok status it dispatches a forced-disconnect operation to channel-stack
element 0 while leaving the reference count unchanged (no additional pipeline
reference is taken); with any other error status it only logs. -/
theorem claim_C5 (t : Sys) :
    (∀ status,
        (force_close_max_age_channel t status).1.chand.max_age_grace_timer_pending = false) ∧
      force_close_max_age_channel t TimerStatus.cancelled =
        ({ t with chand := { t.chand with max_age_grace_timer_pending := false } }, []) ∧
      force_close_max_age_channel t TimerStatus.ok =
        ({ t with chand := { t.chand with max_age_grace_timer_pending := false } },
         [Act.dispatchDisconnect 0]) ∧
      (force_close_max_age_channel t TimerStatus.ok).1.refs = t.refs ∧
      force_close_max_age_channel t TimerStatus.otherError =
        ({ t with chand := { t.chand with max_age_grace_timer_pending := false } },
         [Act.logError]) := by
  refine ⟨?_, rfl, rfl, rfl, rfl⟩
  intro status
  cases status <;> rfl

/-- C6: for every configuration with a finite (non-infinite) stored
max_connection_age, initialization arms no timer synchronously (ageArmed is
false at initSys), takes one channel-stack reference (refs = 1) and schedules
the deferred start callback (startScheduled); the callback itself sets
max_age_timer_pending, arms the age timer at now + max_connection_age, and
only after the arming action releases its reference (refs decremented, the
unref action following the arm action). -/
theorem claim_C6 (channelArgs : List ChannelArg) (now : Nat)
    (hfin : (init_channel_elem channelArgs).1.max_connection_age ≠ gpr_inf_future) :
    (initSys channelArgs).ageArmed = false ∧
      (initSys channelArgs).startScheduled = true ∧
      (initSys channelArgs).refs = 1 ∧
      (∀ t : Sys,
        (start_max_age_timer_after_init t now).1.chand.max_age_timer_pending = true ∧
          (start_max_age_timer_after_init t now).1.ageArmed = true ∧
          (start_max_age_timer_after_init t now).1.refs = t.refs - 1 ∧
          (start_max_age_timer_after_init t now).2 =
            [Act.armAgeTimer (gpr_time_add (Timespec.fin now) t.chand.max_connection_age),
             Act.unrefStack]) := by
  refine ⟨?_, ?_, ?_, ?_⟩ <;>
    simp [initSys, hfin, start_max_age_timer_after_init]

/-- C7: destroy_channel_elem emits a cancel action for the age timer exactly
when max_age_timer_pending is set and for the grace timer exactly when
max_age_grace_timer_pending is set, and performs no other action (the channel
data, reference count and closure/timer bookkeeping are unchanged; only the
cancellation-request flags are recorded); moreover, once a reachable state is
destroyed, every further reachable trace emits no action at all — in
particular no operation is ever dispatched after teardown. -/
theorem claim_C7 (channelArgs : List ChannelArg) (tr₁ tr₂ : List (Ev × List Act))
    (s₁ s₂ : Sys)
    (h1 : Reaches (initSys channelArgs) tr₁ s₁)
    (hd : s₁.destroyed = true)
    (h2 : Reaches s₁ tr₂ s₂) :
    (∀ t : Sys,
      ((Act.cancelAgeTimer ∈ (destroy_channel_elem t).2 ↔
          t.chand.max_age_timer_pending = true) ∧
        (Act.cancelGraceTimer ∈ (destroy_channel_elem t).2 ↔
          t.chand.max_age_grace_timer_pending = true) ∧
        (∀ a ∈ (destroy_channel_elem t).2,
          a = Act.cancelAgeTimer ∨ a = Act.cancelGraceTimer) ∧
        (destroy_channel_elem t).1.chand = t.chand ∧
        (destroy_channel_elem t).1.refs = t.refs ∧
        (destroy_channel_elem t).1.startScheduled = t.startScheduled ∧
        (destroy_channel_elem t).1.goawayContPending = t.goawayContPending ∧
        (destroy_channel_elem t).1.ageArmed = t.ageArmed ∧
        (destroy_channel_elem t).1.graceArmed = t.graceArmed)) ∧
      traceActs tr₂ = [] := by
  constructor
  · intro t
    rw [destroy_channel_elem_eq]
    by_cases hp1 : t.chand.max_age_timer_pending <;>
      by_cases hp2 : t.chand.max_age_grace_timer_pending <;>
        refine ⟨?_, ?_, ?_, ?_, ?_, ?_, ?_, ?_, ?_⟩ <;>
          simp [hp1, hp2]
  · have hinv₁ : SysInv s₁ (([] : List Act) ++ traceActs tr₁) :=
      reaches_inv (initSys_inv channelArgs) h1
    exact (destroyed_reaches hinv₁ hd h2).2

/-- C8: for each of the two configuration keys, a configured value below one
second is clamped to one second, the INT_MAX sentinel maps to the infinite
duration, any other positive in-range value is stored as that many seconds,
and init_channel_elem always returns GRPC_ERROR_NONE (configuration parsing
never fails). -/
theorem claim_C8 (v : Int) (hle : v ≤ INT_MAX) :
    (∀ channelArgs, (init_channel_elem channelArgs).2 = GrpcErrorCode.noError) ∧
      (v < 1 →
        (init_channel_elem
            [⟨ChannelArgKey.maxConnectionAge, v⟩]).1.max_connection_age =
          gpr_time_from_seconds 1 ∧
        (init_channel_elem
            [⟨ChannelArgKey.maxConnectionAgeGrace, v⟩]).1.max_connection_age_grace =
          some (gpr_time_from_seconds 1)) ∧
      (v = INT_MAX →
        (init_channel_elem
            [⟨ChannelArgKey.maxConnectionAge, v⟩]).1.max_connection_age =
          gpr_inf_future ∧
        (init_channel_elem
            [⟨ChannelArgKey.maxConnectionAgeGrace, v⟩]).1.max_connection_age_grace =
          some gpr_inf_future) ∧
      (1 ≤ v → v < INT_MAX →
        (init_channel_elem
            [⟨ChannelArgKey.maxConnectionAge, v⟩]).1.max_connection_age =
          gpr_time_from_seconds v ∧
        (init_channel_elem
            [⟨ChannelArgKey.maxConnectionAgeGrace, v⟩]).1.max_connection_age_grace =
          some (gpr_time_from_seconds v)) := by
  refine ⟨fun channelArgs => rfl, ?_, ?_, ?_⟩
  · intro h
    constructor <;>
      simp [init_channel_elem, applyArg, grpc_channel_arg_get_integer, h, INT_MAX]
  · intro h
    subst h
    constructor <;>
      simp [init_channel_elem, applyArg, grpc_channel_arg_get_integer, INT_MAX]
  · intro h1 h2
    have hne : v ≠ INT_MAX := by omega
    constructor <;>
      simp [init_channel_elem, applyArg, grpc_channel_arg_get_integer, hne,
        not_lt.2 h1, not_lt.2 (le_of_lt h2)]

/-- C9: both default-duration assignments in init_channel_elem write the
max_connection_age field — after the default phase the age field is the
infinite duration (both default constants equal INT_MAX) while the grace field
is still unassigned; consequently any configuration lacking the age key still
ends with max_connection_age infinite, and max_connection_age_grace is
assigned exactly when the grace key is present. -/
theorem claim_C9 (channelArgs : List ChannelArg) :
    DEFAULT_MAX_CONNECTION_AGE_S = INT_MAX ∧
      DEFAULT_MAX_CONNECTION_AGE_GRACE_S = INT_MAX ∧
      init_channel_elem_defaults.max_connection_age = gpr_inf_future ∧
      init_channel_elem_defaults.max_connection_age_grace = none ∧
      (hasArgKey channelArgs ChannelArgKey.maxConnectionAge = false →
        (init_channel_elem channelArgs).1.max_connection_age = gpr_inf_future) ∧
      ((init_channel_elem channelArgs).1.max_connection_age_grace = none ↔
        hasArgKey channelArgs ChannelArgKey.maxConnectionAgeGrace = false) := by
  refine ⟨by decide, by decide, by decide, by decide, ?_, ?_⟩
  · intro h
    rw [init_channel_elem]
    have := foldl_applyArg_age_of_no_age_key channelArgs init_channel_elem_defaults h
    simpa [init_channel_elem_defaults] using this
  · rw [init_channel_elem]
    simp [foldl_applyArg_grace_none, init_channel_elem_defaults]

/-- C10: the per-call hooks are pure pass-throughs: the call constructor
returns GRPC_ERROR_NONE and leaves the channel and call state untouched, and
the call destructor changes nothing. -/
theorem claim_C10 (chand : ChannelData) (calld : Unit) :
    init_call_elem chand calld = (GrpcErrorCode.noError, chand, calld) ∧
      destroy_call_elem chand calld = (chand, calld) :=
  ⟨rfl, rfl⟩

/-- A concrete happy-path execution for a five-second max_connection_age: the
deferred start runs at t = 7, the age timer fires Ok, the goaway continuation
runs at t = 12, and the grace timer fires Ok (the grace deadline is
indeterminate because the grace duration was never assigned). -/
def witnessTrace : List (Ev × List Act) :=
  [(Ev.runStartAgeTimer 7, [Act.armAgeTimer (Timespec.fin 12), Act.unrefStack]),
   (Ev.ageTimerFire TimerStatus.ok,
    [Act.refStack, Act.dispatchGoaway GRPC_HTTP2_NO_ERROR 0]),
   (Ev.runGraceTimerCont 12, [Act.armGraceTimer none, Act.unrefStack]),
   (Ev.graceTimerFire TimerStatus.ok, [Act.dispatchDisconnect 0])]

/-- Witness for C2: the empty configuration stores an infinite age, and a
trace consisting of a teardown step emits nothing. -/
theorem claim_C2_witness :
    (init_channel_elem ([] : List ChannelArg)).1.max_connection_age = gpr_inf_future ∧
      (initSys []).startScheduled = false ∧
      traceActs [(Ev.channelDestroy, (destroy_channel_elem (initSys [])).2)] = [] := by
  have hinf : (init_channel_elem ([] : List ChannelArg)).1.max_connection_age =
      gpr_inf_future := by decide
  have hr : Reaches (initSys [])
      ([] ++ [(Ev.channelDestroy, (destroy_channel_elem (initSys [])).2)])
      { (destroy_channel_elem (initSys [])).1 with destroyed := true } :=
    Reaches.step _ _ _ _ _ _ (Reaches.refl _)
      (Step.destroy (initSys []) (by decide) (by decide))
  have h := claim_C2 [] _ _ hinf hr
  exact ⟨hinf, h.1, h.2⟩

/-- Witness for C3 on the concrete happy-path trace. -/
theorem claim_C3_witness :
    (traceActs witnessTrace).countP Act.isDisconnect ≤ 1 ∧
      (traceActs witnessTrace).countP Act.isArmGrace ≤
        (traceActs witnessTrace).countP Act.isGoaway := by
  have h0 := Reaches.refl (initSys [⟨ChannelArgKey.maxConnectionAge, 5⟩])
  have h1 := Reaches.step _ _ _ _ _ _ h0 (Step.runStart _ 7 (by decide))
  have h2 := Reaches.step _ _ _ _ _ _ h1
    (Step.ageFire _ TimerStatus.ok (by decide) (by decide))
  have h3 := Reaches.step _ _ _ _ _ _ h2 (Step.runGraceCont _ 12 (by decide))
  have h4 := Reaches.step _ _ _ _ _ _ h3
    (Step.graceFire _ TimerStatus.ok (by decide) (by decide))
  have h := claim_C3 [⟨ChannelArgKey.maxConnectionAge, 5⟩] witnessTrace _ (by exact h4)
  exact ⟨h.2.2.2.1, h.1⟩

/-- Witness for C6 at a five-second configured age. -/
theorem claim_C6_witness :
    (initSys [⟨ChannelArgKey.maxConnectionAge, 5⟩]).startScheduled = true ∧
      (initSys [⟨ChannelArgKey.maxConnectionAge, 5⟩]).refs = 1 :=
  ⟨(claim_C6 [⟨ChannelArgKey.maxConnectionAge, 5⟩] 3 (by decide)).2.1,
   (claim_C6 [⟨ChannelArgKey.maxConnectionAge, 5⟩] 3 (by decide)).2.2.1⟩

/-- Witness for C7: after the deferred start arms the age timer and teardown
cancels it, the age timer firing with Cancelled status emits nothing. -/
theorem claim_C7_witness :
    traceActs [(Ev.ageTimerFire TimerStatus.cancelled, ([] : List Act))] = [] := by
  have h0 := Reaches.refl (initSys [⟨ChannelArgKey.maxConnectionAge, 5⟩])
  have h1 := Reaches.step _ _ _ _ _ _ h0 (Step.runStart _ 7 (by decide))
  have h2 := Reaches.step _ _ _ _ _ _ h1 (Step.destroy _ (by decide) (by decide))
  exact (claim_C7 [⟨ChannelArgKey.maxConnectionAge, 5⟩] _ _ _ _ h2 (by decide)
    (Reaches.step _ _ _ _ _ _ (Reaches.refl _)
      (Step.ageFire _ TimerStatus.cancelled (by decide) (by decide)))).2

/-- Witness for C8 at concrete configured values 0 (clamped), INT_MAX
(infinite) and 5 (stored as seconds). -/
theorem claim_C8_witness :
    (init_channel_elem [⟨ChannelArgKey.maxConnectionAge, 0⟩]).1.max_connection_age =
        gpr_time_from_seconds 1 ∧
      (init_channel_elem
          [⟨ChannelArgKey.maxConnectionAge, 2147483647⟩]).1.max_connection_age =
        gpr_inf_future ∧
      (init_channel_elem
          [⟨ChannelArgKey.maxConnectionAgeGrace, 5⟩]).1.max_connection_age_grace =
        some (gpr_time_from_seconds 5) ∧
      (init_channel_elem ([] : List ChannelArg)).2 = GrpcErrorCode.noError :=
  ⟨((claim_C8 0 (by decide)).2.1 (by decide)).1,
   ((claim_C8 2147483647 (by decide)).2.2.1 (by decide)).1,
   ((claim_C8 5 (by decide)).2.2.2 (by decide) (by decide)).2,
   (claim_C8 0 (by decide)).1 []⟩

/-- Witness for C9 at the empty configuration: the age duration is infinite
and the grace duration is unassigned. -/
theorem claim_C9_witness :
    (init_channel_elem ([] : List ChannelArg)).1.max_connection_age = gpr_inf_future ∧
      (init_channel_elem ([] : List ChannelArg)).1.max_connection_age_grace = none :=
  ⟨(claim_C9 []).2.2.2.2.1 (by decide), ((claim_C9 []).2.2.2.2.2).2 (by decide)⟩
